import Mathlib

/-!
Verification of the diagnostic-harness scripts of the
`video-annotation-viewer` repository against their specification.

The development shallowly embeds the decision logic of the four scripts:

* `scripts/test_api_quick.py` — the probe suite (`APIQuickTester`): the
  result accumulator `_log_result`, the per-probe pass/fail conditions,
  the missing-endpoint checks, the job-endpoint chain with its dependent
  probe, and the SSE streaming probe;
* `scripts/diagnose_failed_jobs.py` — the job-failure triage engine
  (`analyze_failed_jobs` and its helpers);
* `scripts/check_openapi.py` — the endpoint classifier (the module-level
  grouping loop over the OpenAPI `paths` keys).

HTTP effects are modelled by passing each probe's observed outcome
(a status code, or an exception) as an explicit argument; everything
else is translated directly from the Python source.
-/

/-- Outcome of one HTTP probe: either a response with a status code, or a
raised exception (connection error, timeout, ...) carrying its message. -/
inductive ProbeOutcome where
  | response (status : Nat)
  | exception (msg : String)
deriving DecidableEq, Repr

/-! ### `test_api_quick.py` : verdict conditions

Each function below is the exact `passed` expression of one probe in
`APIQuickTester`.  Statuses are natural numbers; the Python `in [..]`
tests become boolean disjunctions of equalities. -/

/-- `test_health_endpoints` / `test_pipelines` (pipeline list) /
`test_job_endpoints` (job status retrieval): `passed = resp.status_code == 200`. -/
def requiredProbePassed (status : Nat) : Bool :=
  status == 200

/-- `test_authentication` (jobs list, line 77) and `test_job_endpoints`
(job list, line 146): `passed = resp.status_code in [200, 401]`. -/
def authGatedProbePassed (status : Nat) : Bool :=
  status == 200 || status == 401

/-- `test_debug_endpoints` (line 249):
`passed = resp.status_code in [200, 404, 401]`. -/
def debugProbePassed (status : Nat) : Bool :=
  status == 200 || status == 404 || status == 401

/-- `test_job_endpoints`, job submission (line 167):
`passed = resp.status_code in [201, 401, 422]`. -/
def jobSubmissionPassed (status : Nat) : Bool :=
  status == 201 || status == 401 || status == 422

/-- `test_missing_endpoints` body for one endpoint (lines 210-223): on a
response the probe always logs `True`; the detail string appends
` (Missing as expected)` for a 404 and ` (Unexpectedly implemented!)`
otherwise.  An exception logs `False`. -/
def missingEndpointVerdict : ProbeOutcome → Bool × String
  | .response s =>
      let details := "Status: " ++ toString s
      if !(s == 404) then
        (true, details ++ " (Unexpectedly implemented!)")
      else
        (true, details ++ " (Missing as expected)")
  | .exception e => (false, "Exception: " ++ e)

/-- C1: for the three policy kinds named by the claim, the recorded verdict
is pass exactly on the claimed accepted set: a required probe passes iff
status = 200, the auth-gated job-listing probe passes iff status is 200 or
401, and a lenient-discovery debug probe passes iff status is 200, 401 or
404; every other status yields fail. -/
theorem C1_verdict_policies (s : Nat) :
    (requiredProbePassed s = true ↔ s = 200) ∧
    (authGatedProbePassed s = true ↔ s = 200 ∨ s = 401) ∧
    (debugProbePassed s = true ↔ s = 200 ∨ s = 401 ∨ s = 404) := by
  refine ⟨?_, ?_, ?_⟩ <;>
    simp [requiredProbePassed, authGatedProbePassed, debugProbePassed,
      Nat.beq_eq_true_eq]
  all_goals tauto

/-- C8 counterexample: the claim says a 200 response makes the
job-submission probe pass, but the source accepts `[201, 401, 422]`
(the created status is 201), so status 200 is recorded as fail. -/
theorem C8_counterexample : jobSubmissionPassed 200 = false := by
  decide

/-- C8 (amended): the job-submission probe's verdict is pass if and only if
the response status code is one of 201, 401 or 422; every other status
(including 200) yields fail. -/
theorem C8_amended (s : Nat) :
    jobSubmissionPassed s = true ↔ s = 201 ∨ s = 401 ∨ s = 422 := by
  simp [jobSubmissionPassed, Nat.beq_eq_true_eq]; tauto

/-- C2 counterexample: the claim says a response status other than 200 or
404 (e.g. 500) yields a fail verdict, but `test_missing_endpoints` logs
`True` for every received response: at status 500 the verdict is pass. -/
theorem C2_counterexample :
    (missingEndpointVerdict (ProbeOutcome.response 500)).1 = true := by
  decide

/-- C2 (amended): a missing-endpoint probe records a pass verdict for every
received response regardless of status; its detail string ends in
` (Missing as expected)` exactly when the status is 404 and in
` (Unexpectedly implemented!)` otherwise — so a 200 (and any non-404
status, 500 included) is a pass flagged distinguishably from the
404 pass — and only a request exception yields a fail verdict. -/
theorem C2_missing_endpoint_amended (s : Nat) (e : String) :
    (missingEndpointVerdict (ProbeOutcome.response s)).1 = true ∧
    (missingEndpointVerdict (ProbeOutcome.response s)).2 =
      "Status: " ++ toString s ++
        (if s = 404 then " (Missing as expected)"
         else " (Unexpectedly implemented!)") ∧
    (missingEndpointVerdict (ProbeOutcome.response 200)).2 ≠
      (missingEndpointVerdict (ProbeOutcome.response 404)).2 ∧
    (missingEndpointVerdict (ProbeOutcome.exception e)).1 = false := by
  refine ⟨?_, ?_, by decide, rfl⟩ <;>
    by_cases h : s = 404 <;> simp [missingEndpointVerdict, h]

/-! ### `test_api_quick.py` : the SSE streaming probe (`test_sse_connection`) -/

/-- Result of reading the body of a 200 streaming response: either the
iterated lines, or an exception raised while iterating. -/
inductive StreamRead where
  | lines (ls : List String)
  | readError (msg : String)
deriving DecidableEq, Repr

/-- Outcome of the SSE probe request: a response (whose stream is read only
on status 200), a `requests.exceptions.Timeout`, or any other exception. -/
inductive SSEOutcome where
  | response (status : Nat) (read : StreamRead)
  | timeout
  | exception (msg : String)
deriving DecidableEq, Repr

/-- Character-list prefix test: `leadsWith p l` is true when `p` is an
initial segment of `l`. -/
def leadsWith : List Char → List Char → Bool
  | [], _ => true
  | _ :: _, [] => false
  | a :: as, b :: bs => a == b && leadsWith as bs

/-- Python's `str.startswith(sub)`, on the underlying character lists. -/
def pyStartsWith (l sub : String) : Bool :=
  leadsWith sub.toList l.toList

/-- The `for line in resp.iter_lines()` loop breaks at the first line that
is truthy and starts with `data:`. -/
def sseFirstData (ls : List String) : Option String :=
  ls.find? (fun l => l != "" && pyStartsWith l "data:")

/-- `test_sse_connection` (lines 254-287), with the HTTP effect replaced by
the observed `SSEOutcome`: returns the logged (passed, details) pair. -/
def sseVerdict : SSEOutcome → Bool × String
  | .response s r =>
      if s == 200 then
        match r with
        | .lines ls =>
            match sseFirstData ls with
            | some line =>
                (true, "Received SSE event: " ++ ((line.drop 5).trim.take 50) ++ "...")
            | none => (false, "No events received")
        | .readError e => (false, "Stream error: " ++ e)
      else if s == 404 then
        (true, "SSE endpoint not implemented yet (expected)")
      else
        (false, "Status: " ++ toString s)
  | .timeout => (true, "Connection timeout (expected if not implemented)")
  | .exception e => (false, "Exception: " ++ e)

/-- C9 counterexample: on a timeout the probe passes, but its detail string
is `Connection timeout (expected if not implemented)` (capital C), not the
exact string `connection timeout (expected if not implemented)` required by
the claim. -/
theorem C9_counterexample :
    (sseVerdict SSEOutcome.timeout).1 = true ∧
    (sseVerdict SSEOutcome.timeout).2 ≠
      "connection timeout (expected if not implemented)" ∧
    (sseVerdict SSEOutcome.timeout).2 =
      "Connection timeout (expected if not implemented)" := by
  refine ⟨rfl, by decide, rfl⟩

/-- C9 (amended): the streaming probe passes on a timeout with detail
exactly `Connection timeout (expected if not implemented)`; passes when
status 200 is returned and a first `data:` line is found; passes on status
404; and fails in every other case — no `data:` line received, a stream
read error, any other status, or any other exception. -/
theorem C9_sse_amended (ls : List String) (l e : String) (s : Nat) :
    sseVerdict SSEOutcome.timeout =
      (true, "Connection timeout (expected if not implemented)") ∧
    (sseFirstData ls = some l →
      (sseVerdict (SSEOutcome.response 200 (StreamRead.lines ls))).1 = true) ∧
    (sseFirstData ls = none →
      sseVerdict (SSEOutcome.response 200 (StreamRead.lines ls)) =
        (false, "No events received")) ∧
    (sseVerdict (SSEOutcome.response 404 (StreamRead.lines ls)) =
      (true, "SSE endpoint not implemented yet (expected)")) ∧
    (s ≠ 200 → s ≠ 404 →
      sseVerdict (SSEOutcome.response s (StreamRead.lines ls)) =
        (false, "Status: " ++ toString s)) ∧
    (sseVerdict (SSEOutcome.response 200 (StreamRead.readError e)) =
      (false, "Stream error: " ++ e)) ∧
    (sseVerdict (SSEOutcome.exception e)).1 = false := by
  refine ⟨rfl, ?_, ?_, rfl, ?_, rfl, rfl⟩
  · intro h; simp [sseVerdict, h]
  · intro h; simp [sseVerdict, h]
  · intro h200 h404
    simp [sseVerdict, Nat.beq_eq_true_eq, h200, h404]

/-- C9 witness: the amended streaming-probe theorem instantiated at
concrete outcomes, discharging each hypothesis. -/
theorem C9_sse_amended_witness :
    (sseVerdict (SSEOutcome.response 200 (StreamRead.lines ["data: hi"]))).1 = true ∧
    sseVerdict (SSEOutcome.response 200 (StreamRead.lines ["noise"])) =
      (false, "No events received") ∧
    sseVerdict (SSEOutcome.response 500 (StreamRead.lines [])) =
      (false, "Status: " ++ toString 500) :=
  ⟨(C9_sse_amended ["data: hi"] "data: hi" "" 0).2.1 (by decide),
   (C9_sse_amended ["noise"] "" "" 0).2.2.1 (by decide),
   (C9_sse_amended [] "" "" 500).2.2.2.2.1 (by decide) (by decide)⟩

/-! ### `test_api_quick.py` : the result accumulator and the job chain -/

/-- One entry of `self.results["details"]` (the timestamp is omitted: it is
wall-clock I/O with no decision logic). -/
structure DetailRecord where
  test : String
  passed : Bool
  details : String
deriving DecidableEq, Repr

/-- `self.results`: the mutable accumulator initialised in `__init__` as
`{"passed": 0, "failed": 0, "details": []}`. -/
structure Results where
  passed : Nat
  failed : Nat
  details : List DetailRecord
deriving DecidableEq, Repr

/-- The accumulator as initialised in `APIQuickTester.__init__`. -/
def initialResults : Results :=
  { passed := 0, failed := 0, details := [] }

/-- `_log_result` (lines 26-39): increments exactly one of the two
counters and appends exactly one detail record. -/
def logResult (r : Results) (test : String) (passed : Bool) (details : String) :
    Results :=
  { passed := if passed then r.passed + 1 else r.passed
    failed := if passed then r.failed else r.failed + 1
    details := r.details ++ [⟨test, passed, details⟩] }

/-- Outcome of an HTTP probe together with the body fields the probe
consumes on success. -/
inductive HttpOutcome (β : Type) where
  | response (status : Nat) (body : β)
  | exception (msg : String)
deriving DecidableEq, Repr

/-- Python truthiness of an optional string: `None` and `""` are falsy. -/
def pyTruthy : Option String → Bool
  | some s => s != ""
  | none => false

/-- The `job_id` variable after the submission block of
`test_job_endpoints` (lines 156-182): it is set only in the 201 branch,
from the response body's `id` field. -/
def submittedJobId (submitO : HttpOutcome (Option String)) : Option String :=
  match submitO with
  | .response s idO => if s == 201 then idO else none
  | .exception _ => none

/-- The job-listing block of `test_job_endpoints` (lines 144-153); the
body field consumed is the `total` count shown in the detail. -/
def logJobList (r : Results) (listO : HttpOutcome Nat) : Results :=
  match listO with
  | .response s total =>
      logResult r "Job List" (s == 200 || s == 401)
        ("Status: " ++ toString s ++
          (if s == 200 then ", Total jobs: " ++ toString total else ""))
  | .exception e => logResult r "Job List" false ("Exception: " ++ e)

/-- The job-submission block of `test_job_endpoints` (lines 156-182). -/
def logJobSubmission (r : Results) (submitO : HttpOutcome (Option String)) :
    Results :=
  match submitO with
  | .response s idO =>
      logResult r "Job Submission" (s == 201 || s == 401 || s == 422)
        ("Status: " ++ toString s ++
          (if s == 201 then ", Job ID: " ++ idO.getD "None"
           else if s == 401 then " (Authentication required)"
           else if s == 422 then " (Validation error - expected for mock data)"
           else ""))
  | .exception e => logResult r "Job Submission" false ("Exception: " ++ e)

/-- The dependent status-retrieval block of `test_job_endpoints`
(lines 184-195); the body field consumed is the job's `status` string. -/
def logJobStatusRetrieval (r : Results) (statusO : HttpOutcome (Option String)) :
    Results :=
  match statusO with
  | .response s st =>
      logResult r "Job Status Retrieval" (s == 200)
        ("Status: " ++ toString s ++
          (if s == 200 then ", Job status: " ++ st.getD "unknown" else ""))
  | .exception e => logResult r "Job Status Retrieval" false ("Exception: " ++ e)

/-- `test_job_endpoints` (lines 139-197): runs the listing and submission
probes, then runs the status-retrieval probe only `if job_id:` is truthy;
returns the updated accumulator and the `job_id` the method returns. -/
def testJobEndpoints (r : Results) (listO : HttpOutcome Nat)
    (submitO : HttpOutcome (Option String))
    (statusO : HttpOutcome (Option String)) : Results × Option String :=
  let r1 := logJobList r listO
  let r2 := logJobSubmission r1 submitO
  let job_id := submittedJobId submitO
  let r3 := if pyTruthy job_id then logJobStatusRetrieval r2 statusO else r2
  (r3, job_id)

/-- The states the accumulator can reach: its initial value, and anything
obtained from a reachable state by one `_log_result` call (every probe in
the suite records its verdict through `_log_result` and nothing else
touches the counters or the detail list). -/
inductive ReachableResults : Results → Prop
  | init : ReachableResults initialResults
  | step (t : String) (p : Bool) (d : String) {r : Results} :
      ReachableResults r → ReachableResults (logResult r t p d)

lemma logResult_passed_add_failed (r : Results) (t : String) (p : Bool)
    (d : String) :
    (logResult r t p d).passed + (logResult r t p d).failed =
      r.passed + r.failed + 1 := by
  cases p <;> simp [logResult] <;> omega

lemma logResult_details_length (r : Results) (t : String) (p : Bool)
    (d : String) :
    (logResult r t p d).details.length = r.details.length + 1 := by
  simp [logResult]

lemma testJobEndpoints_reachable (r : Results) (listO : HttpOutcome Nat)
    (submitO : HttpOutcome (Option String))
    (statusO : HttpOutcome (Option String)) (h : ReachableResults r) :
    ReachableResults (testJobEndpoints r listO submitO statusO).1 := by
  have h1 : ReachableResults (logJobList r listO) := by
    cases listO <;> exact ReachableResults.step _ _ _ h
  have h2 : ReachableResults (logJobSubmission (logJobList r listO) submitO) := by
    cases submitO <;> exact ReachableResults.step _ _ _ h1
  unfold testJobEndpoints
  by_cases hid : pyTruthy (submittedJobId submitO) = true
  · simp only [hid, if_true]
    cases statusO <;> exact ReachableResults.step _ _ _ h2
  · simp only [Bool.not_eq_true] at hid
    simp only [hid, if_false]
    exact h2

/-- C6: at every point of a suite run the aggregate passed plus failed
count equals the length of the recorded detail list (each `_log_result`
call increments exactly one counter and appends exactly one record); the
job-endpoint chain only moves the accumulator through `_log_result` steps;
and when job submission yields no usable id the dependent status-retrieval
probe is skipped — exactly two probes are recorded (listing and
submission), against three when an id is obtained — so the skipped probe
is counted as neither passed nor failed. -/
theorem C6_counts_invariant :
    (∀ r : Results, ReachableResults r →
      r.passed + r.failed = r.details.length) ∧
    (∀ (r : Results) (listO : HttpOutcome Nat)
       (submitO statusO : HttpOutcome (Option String)), ReachableResults r →
      ReachableResults (testJobEndpoints r listO submitO statusO).1) ∧
    (∀ (r : Results) (listO : HttpOutcome Nat)
       (submitO statusO : HttpOutcome (Option String)),
      pyTruthy (submittedJobId submitO) = false →
      (testJobEndpoints r listO submitO statusO).1.details.length =
          r.details.length + 2 ∧
      (testJobEndpoints r listO submitO statusO).1.passed +
          (testJobEndpoints r listO submitO statusO).1.failed =
        r.passed + r.failed + 2) ∧
    (∀ (r : Results) (listO : HttpOutcome Nat)
       (submitO statusO : HttpOutcome (Option String)),
      pyTruthy (submittedJobId submitO) = true →
      (testJobEndpoints r listO submitO statusO).1.details.length =
          r.details.length + 3 ∧
      (testJobEndpoints r listO submitO statusO).1.passed +
          (testJobEndpoints r listO submitO statusO).1.failed =
        r.passed + r.failed + 3) := by
  have hlen1 : ∀ (r : Results) (listO : HttpOutcome Nat),
      (logJobList r listO).details.length = r.details.length + 1 ∧
      (logJobList r listO).passed + (logJobList r listO).failed =
        r.passed + r.failed + 1 := by
    intro r listO
    cases listO <;>
      exact ⟨logResult_details_length .., logResult_passed_add_failed ..⟩
  have hlen2 : ∀ (r : Results) (submitO : HttpOutcome (Option String)),
      (logJobSubmission r submitO).details.length = r.details.length + 1 ∧
      (logJobSubmission r submitO).passed + (logJobSubmission r submitO).failed =
        r.passed + r.failed + 1 := by
    intro r submitO
    cases submitO <;>
      exact ⟨logResult_details_length .., logResult_passed_add_failed ..⟩
  have hlen3 : ∀ (r : Results) (statusO : HttpOutcome (Option String)),
      (logJobStatusRetrieval r statusO).details.length = r.details.length + 1 ∧
      (logJobStatusRetrieval r statusO).passed +
          (logJobStatusRetrieval r statusO).failed =
        r.passed + r.failed + 1 := by
    intro r statusO
    cases statusO <;>
      exact ⟨logResult_details_length .., logResult_passed_add_failed ..⟩
  refine ⟨?_, testJobEndpoints_reachable, ?_, ?_⟩
  · intro r h
    induction h with
    | init => rfl
    | step t p d _ ih =>
        rw [logResult_passed_add_failed, logResult_details_length, ih]
  · intro r listO submitO statusO hid
    simp only [testJobEndpoints, hid, Bool.false_eq_true, if_false]
    have a1 := hlen1 r listO
    have a2 := hlen2 (logJobList r listO) submitO
    omega
  · intro r listO submitO statusO hid
    simp only [testJobEndpoints, hid, if_true]
    have a1 := hlen1 r listO
    have a2 := hlen2 (logJobList r listO) submitO
    have a3 := hlen3 (logJobSubmission (logJobList r listO) submitO) statusO
    omega

/-- C6 witness: the invariant theorem instantiated at concrete reachable
states and concrete probe outcomes, discharging each hypothesis. -/
theorem C6_counts_invariant_witness :
    ((logResult initialResults "Basic Health Check" true "Status: 200").passed +
        (logResult initialResults "Basic Health Check" true "Status: 200").failed =
      (logResult initialResults "Basic Health Check" true "Status: 200").details.length) ∧
    (testJobEndpoints initialResults (HttpOutcome.response 200 0)
        (HttpOutcome.response 422 none)
        (HttpOutcome.response 200 none)).1.details.length =
      initialResults.details.length + 2 ∧
    (testJobEndpoints initialResults (HttpOutcome.response 200 0)
        (HttpOutcome.response 201 (some "j1"))
        (HttpOutcome.response 200 none)).1.details.length =
      initialResults.details.length + 3 :=
  ⟨C6_counts_invariant.1 _
      (ReachableResults.step _ _ _ ReachableResults.init),
   (C6_counts_invariant.2.2.1 initialResults (HttpOutcome.response 200 0)
      (HttpOutcome.response 422 none) (HttpOutcome.response 200 none)
      (by decide)).1,
   (C6_counts_invariant.2.2.2 initialResults (HttpOutcome.response 200 0)
      (HttpOutcome.response 201 (some "j1")) (HttpOutcome.response 200 none)
      (by decide)).1⟩

/-! ### `diagnose_failed_jobs.py` : the job triage engine

`analyze_failed_jobs` is embedded with its three HTTP effects passed as
arguments: the health fetch result, the job-collection fetch result, and
the per-job detail fetch (each `None` on any request error, as the
helpers `get_server_health` / `get_all_jobs` / `get_job_details` return).
The function's value is the diagnostics dictionary written to
`failed_jobs_diagnostics.json`, or `none` on any early `return`. -/

/-- One entry of the fetched job collection; each field is `none` when the
key is absent (`job.get(...)`), `pipelines` defaults to `[]`. -/
structure Job where
  id : Option String
  status : Option String
  created_at : Option String
  updated_at : Option String
  video_filename : Option String
  pipelines : List String
  error_message : Option String
deriving DecidableEq, Repr

/-- The per-job detail response (`get_job_details`); the only field the
engine consumes from it is `error_message`. -/
structure JobDetail where
  error_message : Option String
deriving DecidableEq, Repr

/-- The health response; the fields consumed are `version` and `status`. -/
structure Health where
  version : Option String
  status : Option String
deriving DecidableEq, Repr

/-- The job-collection response; the engine consumes
`jobs_response.get('jobs', [])`. -/
structure JobsResponse where
  jobs : List Job
deriving DecidableEq, Repr

/-- One record of the bundle's `failed_jobs` list (`job_info`). -/
structure JobInfo where
  job_id : Option String
  status : Option String
  created_at : Option String
  updated_at : Option String
  video_filename : Option String
  pipelines : List String
  error_message : Option String
  details : Option JobDetail
deriving DecidableEq, Repr

/-- The `diagnostics` dictionary (lines 114-128): server identity, the
status histogram of the `summary` key, and the `failed_jobs` records. -/
structure DiagnosticBundle where
  server_version : Option String
  server_status : Option String
  total_jobs : Nat
  completed : Nat
  pending : Nat
  failed : Nat
  failed_jobs : List JobInfo
deriving DecidableEq, Repr

/-- `job.get('status') in ['failed', 'error', 'cancelled']` (line 96). -/
def isFailedJob (j : Job) : Bool :=
  j.status == some "failed" || j.status == some "error" ||
    j.status == some "cancelled"

/-- `job.get('status') == 'completed'` (line 97). -/
def isCompletedJob (j : Job) : Bool :=
  j.status == some "completed"

/-- `job.get('status') in ['pending', 'processing']` (line 98). -/
def isPendingJob (j : Job) : Bool :=
  j.status == some "pending" || j.status == some "processing"

/-- Python's `a or b` on optional strings: the first operand wins unless
it is falsy (`None` or `""`). -/
def pyOrStr (a b : Option String) : Option String :=
  match a with
  | some s => if s == "" then b else some s
  | none => b

/-- The `error_message` expression of line 146:
`job.get('error_message') or details.get('error_message') if details else None`.
Python parses it as
`(job.get('error_message') or details.get('error_message')) if details else None`,
so the whole value is `None` whenever the detail fetch failed. -/
def resolvedErrorMessage (job : Job) (details : Option JobDetail) :
    Option String :=
  match details with
  | some d => pyOrStr job.error_message d.error_message
  | none => none

/-- The console line printed for a record's error message (lines 153-156):
the message when truthy, else the explicit no-message marker. -/
def errorConsoleLine (m : Option String) : String :=
  if pyTruthy m then "   ❌ Error: " ++ m.getD ""
  else "   ⚠️  No error message available"

/-- The `job_info` record built for one failed job (lines 136-148). -/
def mkJobInfo (detailFetch : Option String → Option JobDetail) (j : Job) :
    JobInfo :=
  let details := detailFetch j.id
  { job_id := j.id
    status := j.status
    created_at := j.created_at
    updated_at := j.updated_at
    video_filename := j.video_filename
    pipelines := j.pipelines
    error_message := resolvedErrorMessage j details
    details := details }

/-- `analyze_failed_jobs` (lines 65-163): aborts (`none`) when the health
fetch fails, when the job-collection fetch fails, or when there is no
failed job; otherwise builds and writes the diagnostics bundle. -/
def analyze_failed_jobs (health : Option Health)
    (jobsResp : Option JobsResponse)
    (detailFetch : Option String → Option JobDetail) :
    Option DiagnosticBundle :=
  match health with
  | none => none
  | some h =>
    match jobsResp with
    | none => none
    | some jr =>
      let jobs := jr.jobs
      let failed_jobs := jobs.filter isFailedJob
      let completed_jobs := jobs.filter isCompletedJob
      let pending_jobs := jobs.filter isPendingJob
      if failed_jobs.isEmpty then none
      else
        some
          { server_version := h.version
            server_status := h.status
            total_jobs := jobs.length
            completed := completed_jobs.length
            pending := pending_jobs.length
            failed := failed_jobs.length
            failed_jobs := failed_jobs.map (mkJobInfo detailFetch) }

/-- Pointwise: the failed-bucket test equals membership of the status in
the terminal set, stated propositionally. -/
lemma isFailedJob_eq_decide (j : Job) :
    isFailedJob j = decide (j.status = some "failed" ∨ j.status = some "error" ∨
      j.status = some "cancelled") := by
  refine Bool.eq_iff_iff.mpr ?_
  simp [isFailedJob, beq_iff_eq]
  tauto

/-- Pointwise: the completed-bucket test, stated propositionally. -/
lemma isCompletedJob_eq_decide (j : Job) :
    isCompletedJob j = decide (j.status = some "completed") := by
  refine Bool.eq_iff_iff.mpr ?_
  simp [isCompletedJob, beq_iff_eq]

/-- Pointwise: the pending-bucket test, stated propositionally. -/
lemma isPendingJob_eq_decide (j : Job) :
    isPendingJob j = decide (j.status = some "pending" ∨
      j.status = some "processing") := by
  refine Bool.eq_iff_iff.mpr ?_
  simp [isPendingJob, beq_iff_eq]

/-- A job lands in at most one of the three histogram buckets. -/
lemma bucket_bits_le (j : Job) :
    (if isFailedJob j then 1 else 0) + (if isCompletedJob j then 1 else 0) +
      (if isPendingJob j then 1 else 0) ≤ 1 := by
  rcases hs : j.status with _ | s
  · simp [isFailedJob, isCompletedJob, isPendingJob, hs]
  · simp only [isFailedJob, isCompletedJob, isPendingJob, hs]
    by_cases h1 : s = "failed"
    · subst h1; decide
    by_cases h2 : s = "error"
    · subst h2; decide
    by_cases h3 : s = "cancelled"
    · subst h3; decide
    by_cases h4 : s = "completed"
    · subst h4; decide
    by_cases h5 : s = "pending"
    · subst h5; decide
    by_cases h6 : s = "processing"
    · subst h6; decide
    simp [beq_iff_eq, h1, h2, h3, h4, h5, h6]

/-- The three bucket sizes never exceed the collection size. -/
lemma filter_three_le (l : List Job) :
    (l.filter isFailedJob).length + (l.filter isCompletedJob).length +
      (l.filter isPendingJob).length ≤ l.length := by
  induction l with
  | nil => simp
  | cons j t ih =>
      have hb := bucket_bits_le j
      simp only [List.filter_cons, List.length_cons]
      by_cases h1 : isFailedJob j <;> by_cases h2 : isCompletedJob j <;>
        by_cases h3 : isPendingJob j <;>
        simp only [h1, h2, h3, if_true, if_false, List.length_cons,
          Bool.false_eq_true, Bool.true_eq_false, if_pos, if_neg] <;>
        simp_all <;> omega

/-- C3 counterexample: line 146 parses as
`(job-level or detail-level) if details else None`, so a failed job with
job-level message `disk full` whose detail fetch fails resolves to `None`
(the claim says it resolves to `disk full`); and a failed job with neither
message resolves to `None` in the bundle, not to the literal marker
`no error message available` (which is only printed to the console). -/
theorem C3_counterexample :
    resolvedErrorMessage
      { id := some "j1", status := some "failed", created_at := none,
        updated_at := none, video_filename := none, pipelines := [],
        error_message := some "disk full" } none = none ∧
    resolvedErrorMessage
      { id := some "j1", status := some "failed", created_at := none,
        updated_at := none, video_filename := none, pipelines := [],
        error_message := some "disk full" } none ≠ some "disk full" ∧
    resolvedErrorMessage
      { id := some "j2", status := some "failed", created_at := none,
        updated_at := none, video_filename := none, pipelines := [],
        error_message := none } (some { error_message := none }) = none ∧
    resolvedErrorMessage
      { id := some "j2", status := some "failed", created_at := none,
        updated_at := none, video_filename := none, pipelines := [],
        error_message := none } (some { error_message := none }) ≠
      some "no error message available" := by
  exact ⟨rfl, by decide, rfl, by decide⟩

/-- C3 (amended): when the per-job detail fetch succeeds, the record's
error message follows the fallback order — the job-level message if
present and non-empty, else the detail-level message; when the detail
fetch fails the record's message is `None` even if a job-level message
exists; the marker `No error message available` is only printed to the
console (for any falsy resolved message), never stored in the bundle. -/
theorem C3_amended (job : Job) (d : JobDetail) (m : String) :
    (job.error_message = none →
      resolvedErrorMessage job (some d) = d.error_message) ∧
    (job.error_message = some m → m ≠ "" →
      resolvedErrorMessage job (some d) = some m) ∧
    (job.error_message = some "" →
      resolvedErrorMessage job (some d) = d.error_message) ∧
    resolvedErrorMessage job none = none ∧
    (∀ mm : Option String, pyTruthy mm = false →
      errorConsoleLine mm = "   ⚠️  No error message available") := by
  refine ⟨?_, ?_, ?_, rfl, ?_⟩
  · intro h; simp [resolvedErrorMessage, pyOrStr, h]
  · intro h hm; simp [resolvedErrorMessage, pyOrStr, h, hm]
  · intro h; simp [resolvedErrorMessage, pyOrStr, h]
  · intro mm h; simp [errorConsoleLine, h]

/-- C3 witness: the amended fallback theorem instantiated at concrete
jobs, discharging each hypothesis: no job-level message with detail-level
`OOM` resolves to `OOM`; a non-empty job-level message wins; the console
marker is printed for a `None` message. -/
theorem C3_amended_witness :
    resolvedErrorMessage
      { id := some "j3", status := some "failed", created_at := none,
        updated_at := none, video_filename := none, pipelines := [],
        error_message := none } (some { error_message := some "OOM" }) =
      some "OOM" ∧
    resolvedErrorMessage
      { id := some "j4", status := some "error", created_at := none,
        updated_at := none, video_filename := none, pipelines := [],
        error_message := some "boom" } (some { error_message := some "OOM" }) =
      some "boom" ∧
    errorConsoleLine none = "   ⚠️  No error message available" :=
  ⟨(C3_amended
      { id := some "j3", status := some "failed", created_at := none,
        updated_at := none, video_filename := none, pipelines := [],
        error_message := none } { error_message := some "OOM" } "").1 rfl,
   (C3_amended
      { id := some "j4", status := some "error", created_at := none,
        updated_at := none, video_filename := none, pipelines := [],
        error_message := some "boom" } { error_message := some "OOM" }
      "boom").2.1 rfl (by decide),
   (C3_amended
      { id := some "j3", status := some "failed", created_at := none,
        updated_at := none, video_filename := none, pipelines := [],
        error_message := none } { error_message := none } "").2.2.2.2
     none rfl⟩

/-- C4: a failed server-health fetch aborts the triage with no bundle, a
failed job-collection fetch aborts with no bundle, and a bundle is
produced only when both fetches succeeded. -/
theorem C4_fatal_preconditions :
    (∀ (jro : Option JobsResponse) (f : Option String → Option JobDetail),
      analyze_failed_jobs none jro f = none) ∧
    (∀ (h : Health) (f : Option String → Option JobDetail),
      analyze_failed_jobs (some h) none f = none) ∧
    (∀ (ho : Option Health) (jro : Option JobsResponse)
       (f : Option String → Option JobDetail),
      (analyze_failed_jobs ho jro f).isSome = true →
      ho.isSome = true ∧ jro.isSome = true) := by
  refine ⟨fun _ _ => rfl, fun _ _ => rfl, ?_⟩
  intro ho jro f h
  cases ho <;> cases jro <;> simp_all [analyze_failed_jobs]

/-- C4 witness: the abort theorem applied at a concrete run that does
produce a bundle, discharging the `isSome` hypothesis by evaluation. -/
theorem C4_fatal_preconditions_witness :
    (some ({ version := some "1.0", status := some "healthy" } : Health)).isSome
        = true ∧
    (some ({ jobs := [⟨some "j1", some "failed", none, none, none, [], none⟩] } :
        JobsResponse)).isSome = true :=
  C4_fatal_preconditions.2.2 _ _ (fun _ => none) (by decide)

/-- C5: whenever a bundle is produced, its histogram counts exactly the
jobs whose status lies in the corresponding set — failed for
{failed, error, cancelled}, completed for completed, pending for
{pending, processing} — its total is the collection size, and its failed
count equals the number of failed-job detail records; in particular the
collection {completed ×2, failed ×1, pending ×1} reports completed = 2,
pending = 1, failed = 1 with exactly one detail record. -/
theorem C5_histogram :
    (∀ (h : Health) (jr : JobsResponse)
       (f : Option String → Option JobDetail) (b : DiagnosticBundle),
      analyze_failed_jobs (some h) (some jr) f = some b →
      b.failed = (jr.jobs.filter (fun j => decide (j.status = some "failed" ∨
          j.status = some "error" ∨ j.status = some "cancelled"))).length ∧
      b.completed = (jr.jobs.filter
          (fun j => decide (j.status = some "completed"))).length ∧
      b.pending = (jr.jobs.filter (fun j => decide (j.status = some "pending" ∨
          j.status = some "processing"))).length ∧
      b.total_jobs = jr.jobs.length ∧
      b.failed_jobs.length = b.failed) ∧
    (∃ b : DiagnosticBundle,
      analyze_failed_jobs (some ⟨some "v", some "healthy"⟩)
        (some ⟨[⟨some "c1", some "completed", none, none, none, [], none⟩,
                ⟨some "c2", some "completed", none, none, none, [], none⟩,
                ⟨some "f1", some "failed", none, none, none, [], none⟩,
                ⟨some "p1", some "pending", none, none, none, [], none⟩]⟩)
        (fun _ => none) = some b ∧
      b.completed = 2 ∧ b.pending = 1 ∧ b.failed = 1 ∧
      b.failed_jobs.length = 1 ∧ b.total_jobs = 4) := by
  constructor
  · intro h jr f b heq
    simp only [analyze_failed_jobs] at heq
    by_cases hEmpty : (jr.jobs.filter isFailedJob).isEmpty = true
    · simp [hEmpty] at heq
    · simp only [hEmpty, Bool.false_eq_true, if_false, Option.some.injEq] at heq
      subst heq
      refine ⟨?_, ?_, ?_, rfl, ?_⟩
      · simp only
        rw [List.filter_congr (fun j _ => isFailedJob_eq_decide j)]
      · simp only
        rw [List.filter_congr (fun j _ => isCompletedJob_eq_decide j)]
      · simp only
        rw [List.filter_congr (fun j _ => isPendingJob_eq_decide j)]
      · simp only [List.length_map]
  · exact ⟨_, rfl, rfl, rfl, rfl, rfl, rfl⟩

/-- C5 witness: the histogram theorem applied at a concrete run,
discharging its bundle-equation hypothesis by evaluation. -/
theorem C5_histogram_witness :
    (⟨some "v", some "healthy", 4, 2, 1, 1,
      [⟨some "f1", some "failed", none, none, none, [], none, none⟩]⟩ :
        DiagnosticBundle).failed_jobs.length =
      (⟨some "v", some "healthy", 4, 2, 1, 1,
        [⟨some "f1", some "failed", none, none, none, [], none, none⟩]⟩ :
          DiagnosticBundle).failed :=
  (C5_histogram.1 ⟨some "v", some "healthy"⟩
    ⟨[⟨some "c1", some "completed", none, none, none, [], none⟩,
      ⟨some "c2", some "completed", none, none, none, [], none⟩,
      ⟨some "f1", some "failed", none, none, none, [], none⟩,
      ⟨some "p1", some "pending", none, none, none, [], none⟩]⟩
    (fun _ => none) _ (by decide)).2.2.2.2

/-- C10: a job whose status is absent or outside the six recognised
values is counted in none of the three buckets (hence contributes no
detail record), the three bucket counts of any produced bundle sum to at
most its total, and a concrete collection with an unrecognised status and
a missing status makes the sum strictly smaller than the total while
producing exactly one detail record. -/
theorem C10_unknown_status :
    (∀ j : Job,
      (∀ s, j.status = some s → s ≠ "failed" ∧ s ≠ "error" ∧ s ≠ "cancelled" ∧
        s ≠ "completed" ∧ s ≠ "pending" ∧ s ≠ "processing") →
      isFailedJob j = false ∧ isCompletedJob j = false ∧
        isPendingJob j = false) ∧
    (∀ (h : Health) (jr : JobsResponse)
       (f : Option String → Option JobDetail) (b : DiagnosticBundle),
      analyze_failed_jobs (some h) (some jr) f = some b →
      b.completed + b.pending + b.failed ≤ b.total_jobs) ∧
    (∃ b : DiagnosticBundle,
      analyze_failed_jobs (some ⟨none, none⟩)
        (some ⟨[⟨some "f1", some "failed", none, none, none, [], none⟩,
                ⟨some "w1", some "mystery", none, none, none, [], none⟩,
                ⟨some "w2", none, none, none, none, [], none⟩]⟩)
        (fun _ => none) = some b ∧
      b.completed + b.pending + b.failed < b.total_jobs ∧
      b.failed_jobs.length = 1) := by
  refine ⟨?_, ?_, ?_⟩
  · intro j hj
    rcases hs : j.status with _ | s
    · simp [isFailedJob, isCompletedJob, isPendingJob, hs]
    · obtain ⟨n1, n2, n3, n4, n5, n6⟩ := hj s hs
      simp [isFailedJob, isCompletedJob, isPendingJob, hs, beq_iff_eq,
        n1, n2, n3, n4, n5, n6]
  · intro h jr f b heq
    simp only [analyze_failed_jobs] at heq
    by_cases hEmpty : (jr.jobs.filter isFailedJob).isEmpty = true
    · simp [hEmpty] at heq
    · simp only [hEmpty, Bool.false_eq_true, if_false, Option.some.injEq] at heq
      subst heq
      have := filter_three_le jr.jobs
      simp only
      omega
  · exact ⟨_, rfl, by decide, rfl⟩

/-- C10 witness: the bucket-exclusion and bound theorem applied at a
concrete unrecognised-status job and a concrete run, discharging each
hypothesis. -/
theorem C10_unknown_status_witness :
    (isFailedJob ⟨some "w1", some "mystery", none, none, none, [], none⟩ = false ∧
     isCompletedJob ⟨some "w1", some "mystery", none, none, none, [], none⟩ = false ∧
     isPendingJob ⟨some "w1", some "mystery", none, none, none, [], none⟩ = false) ∧
    (⟨none, none, 1, 0, 0, 1,
      [⟨some "f1", some "failed", none, none, none, [], none, none⟩]⟩ :
        DiagnosticBundle).completed +
      (⟨none, none, 1, 0, 0, 1,
        [⟨some "f1", some "failed", none, none, none, [], none, none⟩]⟩ :
          DiagnosticBundle).pending +
      (⟨none, none, 1, 0, 0, 1,
        [⟨some "f1", some "failed", none, none, none, [], none, none⟩]⟩ :
          DiagnosticBundle).failed ≤
      (⟨none, none, 1, 0, 0, 1,
        [⟨some "f1", some "failed", none, none, none, [], none, none⟩]⟩ :
          DiagnosticBundle).total_jobs :=
  ⟨C10_unknown_status.1 ⟨some "w1", some "mystery", none, none, none, [], none⟩
    (fun s hs => by injection hs with h; subst h; decide),
   C10_unknown_status.2.1 ⟨none, none⟩
    ⟨[⟨some "f1", some "failed", none, none, none, [], none⟩]⟩
    (fun _ => none) _ (by decide)⟩

/-! ### `check_openapi.py` : the endpoint classifier

The module-level grouping loop (lines 14-33): each path of the OpenAPI
`paths` mapping is appended to the first matching bucket of a
priority-ordered substring chain (`/system/`, then `/pipeline`, then
`/job`, then `/debug/`), else to `other`. -/

/-- Substring search on character lists: true when `sub` occurs
contiguously in the second list. -/
def hasSub (sub : List Char) : List Char → Bool
  | [] => sub.isEmpty
  | c :: rest => leadsWith sub (c :: rest) || hasSub sub rest

/-- Python's `sub in path` on strings. -/
def pyIn (sub path : String) : Bool :=
  hasSub sub.toList path.toList

/-- The five semantic groups of the classifier. -/
inductive Category where
  | system
  | pipeline
  | job
  | debug
  | other
deriving DecidableEq, Repr

/-- The category a path falls into: the `if/elif` chain of lines 24-33. -/
def classify (path : String) : Category :=
  if pyIn "/system/" path then Category.system
  else if pyIn "/pipeline" path then Category.pipeline
  else if pyIn "/job" path then Category.job
  else if pyIn "/debug/" path then Category.debug
  else Category.other

/-- The five accumulator lists of lines 17-21. -/
structure EndpointGroups where
  system_endpoints : List String
  pipeline_endpoints : List String
  job_endpoints : List String
  debug_endpoints : List String
  other_endpoints : List String
deriving DecidableEq, Repr

/-- The initial empty groups. -/
def emptyGroups : EndpointGroups :=
  ⟨[], [], [], [], []⟩

/-- One iteration of the grouping loop (lines 23-33): append the path to
the first bucket whose substring test matches. -/
def addPath (g : EndpointGroups) (path : String) : EndpointGroups :=
  if pyIn "/system/" path then
    { g with system_endpoints := g.system_endpoints ++ [path] }
  else if pyIn "/pipeline" path then
    { g with pipeline_endpoints := g.pipeline_endpoints ++ [path] }
  else if pyIn "/job" path then
    { g with job_endpoints := g.job_endpoints ++ [path] }
  else if pyIn "/debug/" path then
    { g with debug_endpoints := g.debug_endpoints ++ [path] }
  else
    { g with other_endpoints := g.other_endpoints ++ [path] }

/-- The whole grouping loop over the path sequence. -/
def groupEndpoints (paths : List String) : EndpointGroups :=
  paths.foldl addPath emptyGroups

/-- Bucket selector, for stating the partition facts uniformly. -/
def bucket (g : EndpointGroups) : Category → List String
  | .system => g.system_endpoints
  | .pipeline => g.pipeline_endpoints
  | .job => g.job_endpoints
  | .debug => g.debug_endpoints
  | .other => g.other_endpoints

lemma bucket_emptyGroups (c : Category) : bucket emptyGroups c = [] := by
  cases c <;> rfl

/-- One loop iteration touches exactly the bucket of the path's category. -/
lemma bucket_addPath (g : EndpointGroups) (p : String) (c : Category) :
    bucket (addPath g p) c =
      if classify p = c then bucket g c ++ [p] else bucket g c := by
  unfold addPath classify
  by_cases h1 : pyIn "/system/" p <;> by_cases h2 : pyIn "/pipeline" p <;>
    by_cases h3 : pyIn "/job" p <;> by_cases h4 : pyIn "/debug/" p <;>
    cases c <;>
    simp [h1, h2, h3, h4, bucket]

/-- Folding the loop from any accumulator appends exactly the
classified-to-`c` paths to bucket `c`. -/
lemma bucket_foldl_addPath (paths : List String) (g : EndpointGroups)
    (c : Category) :
    bucket (paths.foldl addPath g) c =
      bucket g c ++ paths.filter (fun p => classify p == c) := by
  induction paths generalizing g with
  | nil => simp
  | cons p t ih =>
      rw [List.foldl_cons, ih, bucket_addPath]
      by_cases h : classify p = c <;>
        simp [List.filter_cons, h, beq_iff_eq]

/-- Counting a path inside a classified filter. -/
lemma count_filter_classify (paths : List String) (p : String) (c : Category) :
    (paths.filter (fun x => classify x == c)).count p =
      if classify p = c then paths.count p else 0 := by
  induction paths with
  | nil => simp
  | cons q t ih =>
      by_cases hq : classify q = c <;> by_cases hpq : p = q
      · subst hpq
        simp [List.filter_cons, List.count_cons, hq, ih]
      · simp [List.filter_cons, List.count_cons, hq, hpq, ih, beq_iff_eq]
      · subst hpq
        simp [List.filter_cons, List.count_cons, hq, ih]
      · simp [List.filter_cons, List.count_cons, hq, hpq, ih, beq_iff_eq]

/-- The five classified filters tile the whole input. -/
lemma sum_filter_lengths (paths : List String) :
    (paths.filter (fun p => classify p == Category.system)).length +
      (paths.filter (fun p => classify p == Category.pipeline)).length +
      (paths.filter (fun p => classify p == Category.job)).length +
      (paths.filter (fun p => classify p == Category.debug)).length +
      (paths.filter (fun p => classify p == Category.other)).length =
    paths.length := by
  induction paths with
  | nil => rfl
  | cons p t ih =>
      cases hc : classify p <;>
        simp [List.filter_cons, hc] <;> omega

/-- C7: for every sequence of path strings the five buckets partition the
input exactly — each bucket is the subsequence of paths classified to it,
each path occurs in the bucket of its category with its full multiplicity
and in no other bucket, and the bucket sizes sum to the input size — the
classification is a total function, and the empty input yields five empty
groups. -/
theorem C7_classifier_partition :
    (∀ (paths : List String) (c : Category),
      bucket (groupEndpoints paths) c =
        paths.filter (fun p => classify p == c)) ∧
    (∀ (paths : List String) (p : String) (c : Category),
      (bucket (groupEndpoints paths) c).count p =
        if classify p = c then paths.count p else 0) ∧
    (∀ paths : List String,
      (groupEndpoints paths).system_endpoints.length +
        (groupEndpoints paths).pipeline_endpoints.length +
        (groupEndpoints paths).job_endpoints.length +
        (groupEndpoints paths).debug_endpoints.length +
        (groupEndpoints paths).other_endpoints.length = paths.length) ∧
    groupEndpoints [] = ⟨[], [], [], [], []⟩ := by
  have hbucket : ∀ (paths : List String) (c : Category),
      bucket (groupEndpoints paths) c =
        paths.filter (fun p => classify p == c) := by
    intro paths c
    have h := bucket_foldl_addPath paths emptyGroups c
    rwa [bucket_emptyGroups, List.nil_append] at h
  refine ⟨hbucket, ?_, ?_, rfl⟩
  · intro paths p c
    rw [hbucket]
    exact count_filter_classify paths p c
  · intro paths
    have e1 := hbucket paths Category.system
    have e2 := hbucket paths Category.pipeline
    have e3 := hbucket paths Category.job
    have e4 := hbucket paths Category.debug
    have e5 := hbucket paths Category.other
    simp only [bucket] at e1 e2 e3 e4 e5
    rw [e1, e2, e3, e4, e5]
    exact sum_filter_lengths paths
